import Mathlib

/-!
Shallow embedding of the GitHub-OAuth authentication core of the server:
the Passport verify callback (find-or-create a user by `github_id`),
`serializeUser`/`deserializeUser`, and the `/auth` routes
(`/github/callback`, `/profile`, `/logout`).

The identity store (`users` table accessed through knex) is modelled as a
list of rows plus an auto-increment counter.  HTTP responses are a small
inductive type; the Passport `done` callback outcomes are modelled
explicitly, including the case where the source code never invokes `done`
(its `catch` branches only `console.log`).
-/

/-- Provider profile as consumed by the verify callback:
`profile.id`, `profile._json.avatar_url`, `profile.username`. -/
structure Profile where
  id : String
  avatar_url : String
  username : String
deriving DecidableEq, Repr

/-- Row of the `users` table: internal auto-assigned `id`, unique
`github_id`, plus the two profile fields. -/
structure UserRow where
  id : Nat
  github_id : String
  avatar_url : String
  username : String
deriving DecidableEq, Repr

/-- Identity store: the `users` table plus the auto-increment counter the
database uses to assign the next internal id. -/
structure DB where
  rows : List UserRow
  nextId : Nat
deriving DecidableEq, Repr

/-- Empty identity store. -/
def emptyDB : DB := ⟨[], 1⟩

/-- Result of `knex('users').select('id').where({ github_id: gid })` as used
by the verify callback (here returning full rows; the callback only reads
`.id` of the head). -/
def usersWhereGithubId (db : DB) (gid : String) : List UserRow :=
  db.rows.filter (fun r => r.github_id == gid)

/-- Number of stored rows carrying a given `github_id`. -/
def countByGithubId (db : DB) (gid : String) : Nat :=
  (usersWhereGithubId db gid).length

/-- Store invariant: no two rows share a `github_id`. -/
def uniqueExternal (db : DB) : Prop :=
  db.rows.Pairwise (fun a b => a.github_id ≠ b.github_id)

/-- Effect of `knex('users').insert({...})`: append a fresh row and return
the newly assigned internal id (`userId[0]`). -/
def insertUser (db : DB) (gid avatar uname : String) : DB × Nat :=
  (⟨db.rows ++ [⟨db.nextId, gid, avatar, uname⟩], db.nextId + 1⟩, db.nextId)

/-- Object passed to Passport's `done(null, user)` by the verify callback:
in the found branch `user[0]` of a `select('id')` query, in the insert
branch `{ id: userId[0] }`.  Either way only an internal id. -/
structure DoneUser where
  id : Nat
deriving DecidableEq, Repr

/-- Verify callback of the GitHub strategy (happy path): look the profile up
by `github_id`; if a row exists pass its id to `done`, otherwise insert a
new row with the three profile fields and pass the new id to `done`. -/
def verifyCallback (db : DB) (p : Profile) : DB × DoneUser :=
  match usersWhereGithubId db p.id with
  | u :: _ => (db, ⟨u.id⟩)
  | [] =>
    let r := insertUser db p.id p.avatar_url p.username
    (r.1, ⟨r.2⟩)

/-- State of the Passport `done` callback after the verify callback ran:
invoked with a user (login succeeds), invoked with an error (login fails),
or never invoked at all. -/
inductive DoneCall where
  | success (u : DoneUser)
  | loginFailed
  | notCalled
deriving DecidableEq, Repr

/-- Verify callback with a fallible store, following the source's promise
chain: a rejected lookup or insert lands in a `catch` branch that only
logs the error and never invokes `done`. -/
def verifyCallbackFallible (selectRes : Except String (List DoneUser))
    (insertRes : Except String Nat) : DoneCall :=
  match selectRes with
  | Except.error _ => DoneCall.notCalled
  | Except.ok users =>
    match users with
    | u :: _ => DoneCall.success u
    | [] =>
      match insertRes with
      | Except.error _ => DoneCall.notCalled
      | Except.ok newId => DoneCall.success ⟨newId⟩

/-- `serializeUser`: store only the user's internal id in the session. -/
def serializeUser (u : DoneUser) : Nat := u.id

/-- `deserializeUser`: fetch the full row for the stored id; `user[0]` of an
empty result set is `undefined`, modelled as `none`. -/
def deserializeUser (db : DB) (userId : Nat) : Option UserRow :=
  (db.rows.filter (fun r => r.id == userId)).head?

/-- Response body: either a JSON user object or a JSON message object. -/
inductive Body where
  | user (u : UserRow)
  | message (m : String)
deriving DecidableEq, Repr

/-- HTTP response produced by the auth routes: a JSON response with a
status, or a redirect (`res.redirect` defaults to status 302). -/
inductive Response where
  | json (status : Nat) (body : Body)
  | redirect (status : Nat) (url : String)
deriving DecidableEq, Repr

/-- Projection of a JSON user body onto all four stored fields. -/
def bodyFields : Body → Option (Nat × String × String × String)
  | Body.user u => some (u.id, u.github_id, u.avatar_url, u.username)
  | Body.message _ => none

/-- `req.user` for a request: the session's stored id, if any, run through
`deserializeUser`. -/
def requestUser (db : DB) (sess : Option Nat) : Option UserRow :=
  match sess with
  | none => none
  | some uid => deserializeUser db uid

/-- Handler of `GET /auth/profile`: 401 `{"message":"Unauthorized"}` when
`req.user` is undefined, else 200 with the user object. -/
def profileHandler (reqUser : Option UserRow) : Response :=
  match reqUser with
  | none => Response.json 401 (Body.message "Unauthorized")
  | some u => Response.json 200 (Body.user u)

/-- Full `GET /auth/profile` request: deserialize the session, run the
handler; the route touches neither the store nor the session. -/
def profileRoute (db : DB) (sess : Option Nat) : DB × Option Nat × Response :=
  (db, sess, profileHandler (requestUser db sess))

/-- Outcome of provider authentication at the callback endpoint. -/
inductive AuthOutcome where
  | success (u : DoneUser)
  | failed
deriving DecidableEq, Repr

/-- Handler of `GET /auth/github/callback`: on success Passport logs the
user in (session holds the serialized id) and the handler redirects to
`CLIENT_URL`; on failure Passport redirects to the configured
`failureRedirect` and establishes no session. -/
def githubCallbackRoute (clientUrl : String) (outcome : AuthOutcome) :
    Option Nat × Response :=
  match outcome with
  | AuthOutcome.success u =>
    (some (serializeUser u), Response.redirect 302 clientUrl)
  | AuthOutcome.failed =>
    (none, Response.redirect 302 (clientUrl ++ "/auth-fail"))

/-- Handler of `GET /auth/logout`: `req.logout()` clears the login session,
then redirect to `CLIENT_URL`. -/
def logoutRoute (clientUrl : String) (_sess : Option Nat) :
    Option Nat × Response :=
  (none, Response.redirect 302 clientUrl)

/-- One login step: run the verify callback, keep the updated store. -/
def loginStep (db : DB) (p : Profile) : DB :=
  (verifyCallback db p).1

/-- Sequence of logins executed one at a time. -/
def runLogins (db : DB) (ps : List Profile) : DB :=
  ps.foldl loginStep db

/-- Concrete row used to instantiate theorems on sample data. -/
def sampleRow : UserRow := ⟨1, "100", "http://avatars/old.png", "olduser"⟩

/-- Concrete store holding exactly `sampleRow`. -/
def sampleDB : DB := ⟨[sampleRow], 2⟩

/-- Profile with the same `github_id` as `sampleRow` but changed fields. -/
def changedProfile : Profile := ⟨"100", "http://avatars/new.png", "newname"⟩

/-- Profile whose `github_id` is absent from `sampleDB`. -/
def freshProfile : Profile := ⟨"200", "http://avatars/fresh.png", "newbie"⟩

lemma verifyCallback_found (db : DB) (p : Profile) (u : UserRow)
    (t : List UserRow) (hf : usersWhereGithubId db p.id = u :: t) :
    verifyCallback db p = (db, ⟨u.id⟩) := by
  unfold verifyCallback
  rw [hf]

lemma verifyCallback_notfound (db : DB) (p : Profile)
    (hf : usersWhereGithubId db p.id = []) :
    verifyCallback db p =
      (⟨db.rows ++ [⟨db.nextId, p.id, p.avatar_url, p.username⟩],
        db.nextId + 1⟩, ⟨db.nextId⟩) := by
  unfold verifyCallback
  rw [hf]
  rfl

lemma filter_gid_singleton (l : List UserRow) (gid : String)
    (hp : l.Pairwise (fun a b => a.github_id ≠ b.github_id))
    (u : UserRow) (hu : u ∈ l) (hgid : u.github_id = gid) :
    l.filter (fun r => r.github_id == gid) = [u] := by
  induction l with
  | nil => cases hu
  | cons a t ih =>
    rw [List.pairwise_cons] at hp
    rcases List.mem_cons.mp hu with h | h
    · subst h
      have hpos : ((fun r => r.github_id == gid) u) = true := by simp [hgid]
      rw [List.filter_cons, if_pos hpos]
      have hnil : t.filter (fun r => r.github_id == gid) = [] := by
        rw [List.filter_eq_nil_iff]
        intro b hb hbg
        have hbg2 : b.github_id = gid := by simpa using hbg
        exact hp.1 b hb (hgid.trans hbg2.symm)
      rw [hnil]
    · have hneq : a.github_id ≠ gid := fun he => hp.1 u h (he.trans hgid.symm)
      have hneg : ¬(((fun r => r.github_id == gid) a) = true) := by simp [hneq]
      rw [List.filter_cons, if_neg hneg]
      exact ih hp.2 h

lemma uniqueExternal_loginStep (db : DB) (p : Profile)
    (h : uniqueExternal db) : uniqueExternal (loginStep db p) := by
  unfold loginStep
  cases hf : usersWhereGithubId db p.id with
  | cons u t =>
    rw [verifyCallback_found db p u t hf]
    exact h
  | nil =>
    rw [verifyCallback_notfound db p hf]
    unfold uniqueExternal
    rw [List.pairwise_append]
    refine ⟨h, List.pairwise_singleton _ _, ?_⟩
    intro a ha b hb
    have hb1 : b = ⟨db.nextId, p.id, p.avatar_url, p.username⟩ := by
      simpa using hb
    subst hb1
    have := List.filter_eq_nil_iff.mp hf a ha
    simpa using this

lemma uniqueExternal_runLogins (db : DB) (ps : List Profile)
    (h : uniqueExternal db) : uniqueExternal (runLogins db ps) := by
  induction ps generalizing db with
  | nil => exact h
  | cons p t ih => exact ih _ (uniqueExternal_loginStep db p h)

lemma count_eq_one_of_mem (db : DB) (h : uniqueExternal db)
    (u : UserRow) (hu : u ∈ db.rows) :
    countByGithubId db u.github_id = 1 := by
  unfold countByGithubId usersWhereGithubId
  rw [filter_gid_singleton db.rows u.github_id h u hu rfl]
  rfl

/-- C1: the verify callback first looks a User up by its external provider
id; if a row matches it returns that row's internal id with the store
unchanged, otherwise it inserts a new row carrying the profile's external
id, avatar URL and display name and returns the newly assigned id. -/
theorem verifyCallback_find_or_create (db : DB) (p : Profile) :
    (∀ u t, usersWhereGithubId db p.id = u :: t →
      verifyCallback db p = (db, ⟨u.id⟩)) ∧
    (usersWhereGithubId db p.id = [] →
      verifyCallback db p =
        (⟨db.rows ++ [⟨db.nextId, p.id, p.avatar_url, p.username⟩],
          db.nextId + 1⟩, ⟨db.nextId⟩)) :=
  ⟨fun u t hf => verifyCallback_found db p u t hf,
   fun hf => verifyCallback_notfound db p hf⟩

theorem verifyCallback_find_or_create_witness :
    verifyCallback emptyDB freshProfile =
      (⟨[⟨1, "200", "http://avatars/fresh.png", "newbie"⟩], 2⟩, ⟨1⟩) :=
  (verifyCallback_find_or_create emptyDB freshProfile).2 rfl

/-- C2: at a failing store the source's `catch` branches only log and never
invoke `done`, so the login neither succeeds nor surfaces as a failed
login — the outcome is no response at all, not an authentication
failure. -/
theorem storage_error_not_surfaced :
    verifyCallbackFallible (Except.error "connection lost") (Except.ok 1) =
      DoneCall.notCalled ∧
    verifyCallbackFallible (Except.ok []) (Except.error "insert failed") =
      DoneCall.notCalled ∧
    DoneCall.notCalled ≠ DoneCall.loginFailed ∧
    (∀ u, DoneCall.notCalled ≠ DoneCall.success u) := by
  refine ⟨rfl, rfl, by decide, fun u h => by cases h⟩

/-- C3: a session id matching no stored row deserializes to `none`, the
request carries no resolved user, and the profile endpoint answers 401
with the Unauthorized message while touching nothing. -/
theorem deserialize_fails_closed (db : DB) (uid : Nat)
    (hstale : ∀ u ∈ db.rows, u.id ≠ uid) :
    deserializeUser db uid = none ∧
    requestUser db (some uid) = none ∧
    profileRoute db (some uid) =
      (db, some uid, Response.json 401 (Body.message "Unauthorized")) := by
  have hfil : db.rows.filter (fun r => r.id == uid) = [] := by
    rw [List.filter_eq_nil_iff]
    intro r hr
    simpa using hstale r hr
  have hd : deserializeUser db uid = none := by
    unfold deserializeUser
    rw [hfil]
    rfl
  have hr : requestUser db (some uid) = none := hd
  refine ⟨hd, hr, ?_⟩
  unfold profileRoute
  rw [hr]
  rfl

theorem deserialize_fails_closed_witness :
    deserializeUser sampleDB 5 = none ∧
    requestUser sampleDB (some 5) = none ∧
    profileRoute sampleDB (some 5) =
      (sampleDB, some 5, Response.json 401 (Body.message "Unauthorized")) :=
  deserialize_fails_closed sampleDB 5 (by decide)

/-- C4: the profile endpoint answers 200 with the user object (whose fields
include the internal id) when a resolved user is attached, answers 401
with exactly the Unauthorized message otherwise, and leaves both the
store and the session untouched. -/
theorem profile_endpoint_responses (db : DB) (sess : Option Nat)
    (u : UserRow) :
    profileHandler (some u) = Response.json 200 (Body.user u) ∧
    bodyFields (Body.user u) =
      some (u.id, u.github_id, u.avatar_url, u.username) ∧
    profileHandler none = Response.json 401 (Body.message "Unauthorized") ∧
    (profileRoute db sess).1 = db ∧ (profileRoute db sess).2.1 = sess :=
  ⟨rfl, rfl, rfl, rfl, rfl⟩

/-- C5: a login whose external id already has a row leaves the store — in
particular that row's stored avatar URL and display name — completely
unchanged, even when the profile carries different field values. -/
theorem login_existing_user_frame (db : DB) (p : Profile) (u : UserRow)
    (hu : u ∈ db.rows) (hgid : u.github_id = p.id) :
    (verifyCallback db p).1 = db := by
  have hmem : u ∈ usersWhereGithubId db p.id := by
    unfold usersWhereGithubId
    rw [List.mem_filter]
    exact ⟨hu, by simp [hgid]⟩
  cases hf : usersWhereGithubId db p.id with
  | nil =>
    rw [hf] at hmem
    cases hmem
  | cons v t =>
    rw [verifyCallback_found db p v t hf]

theorem login_existing_user_frame_witness :
    (verifyCallback sampleDB changedProfile).1 = sampleDB :=
  login_existing_user_frame sampleDB changedProfile sampleRow
    (by decide) (by decide)

/-- C6: starting from a store whose rows have pairwise distinct external
ids, any sequence of logins keeps exactly one row per stored external id;
a login with an unseen external id adds exactly one row (its external id
then counted once), and a login matching a stored row changes nothing and
returns that row's internal id. -/
theorem login_unique_external_id (db : DB) (ps : List Profile)
    (p : Profile) (hinv : uniqueExternal db) :
    (∀ u ∈ (runLogins db ps).rows,
      countByGithubId (runLogins db ps) u.github_id = 1) ∧
    (countByGithubId db p.id = 0 →
      (loginStep db p).rows.length = db.rows.length + 1 ∧
      countByGithubId (loginStep db p) p.id = 1) ∧
    (∀ u ∈ db.rows, u.github_id = p.id →
      loginStep db p = db ∧ (verifyCallback db p).2 = ⟨u.id⟩) := by
  refine ⟨?_, ?_, ?_⟩
  · intro u hu
    exact count_eq_one_of_mem _ (uniqueExternal_runLogins db ps hinv) u hu
  · intro h0
    have hfil : usersWhereGithubId db p.id = [] := by
      unfold countByGithubId at h0
      exact List.length_eq_zero.mp h0
    unfold loginStep
    rw [verifyCallback_notfound db p hfil]
    refine ⟨by simp, ?_⟩
    unfold countByGithubId usersWhereGithubId at hfil ⊢
    simp [List.filter_append, hfil]
  · intro u hu hgid
    have hfil : usersWhereGithubId db p.id = [u] := by
      unfold usersWhereGithubId
      exact filter_gid_singleton db.rows p.id hinv u hu hgid
    unfold loginStep
    rw [verifyCallback_found db p u [] hfil]
    exact ⟨rfl, rfl⟩

theorem login_unique_external_id_witness :
    (loginStep emptyDB freshProfile).rows.length =
      emptyDB.rows.length + 1 ∧
    countByGithubId (loginStep emptyDB freshProfile) freshProfile.id = 1 :=
  (login_unique_external_id emptyDB [] freshProfile List.Pairwise.nil).2.1 rfl

/-- C7: the OAuth callback endpoint redirects (status 302, a 3xx) to the
configured client URL on provider success with the session established,
and on failure redirects to the client URL suffixed `/auth-fail` with no
session created. -/
theorem callback_redirects (url : String) (u : DoneUser) :
    githubCallbackRoute url (AuthOutcome.success u) =
      (some u.id, Response.redirect 302 url) ∧
    githubCallbackRoute url AuthOutcome.failed =
      (none, Response.redirect 302 (url ++ "/auth-fail")) ∧
    300 ≤ 302 ∧ 302 < 400 :=
  ⟨rfl, rfl, by decide, by decide⟩

/-- C8: logging out an established session clears it and redirects to the
client root, and a subsequent profile request on the cleared session
answers 401 Unauthorized. -/
theorem logout_then_profile_401 (db : DB) (url : String) (uid : Nat) :
    logoutRoute url (some uid) = (none, Response.redirect 302 url) ∧
    profileRoute db (logoutRoute url (some uid)).1 =
      (db, none, Response.json 401 (Body.message "Unauthorized")) :=
  ⟨rfl, rfl⟩

/-- C9: the serialize step stores exactly the resolved user's internal id —
a bare number, carrying no profile fields and no external provider id —
and after a successful login the session holds precisely the id produced
by the verify callback. -/
theorem serialize_stores_only_id (u : DoneUser) (db : DB) (p : Profile)
    (url : String) :
    serializeUser u = u.id ∧
    (githubCallbackRoute url
      (AuthOutcome.success (verifyCallback db p).2)).1 =
      some ((verifyCallback db p).2).id :=
  ⟨rfl, rfl⟩

/-- C10: when deserialization resolves a user, the profile endpoint returns
the entire stored row — internal id, github_id, avatar_url and username
— as the 200 response body, not a restricted subset. -/
theorem profile_returns_full_row (db : DB) (uid : Nat) (u : UserRow)
    (h : deserializeUser db uid = some u) :
    u ∈ db.rows ∧
    profileRoute db (some uid) =
      (db, some uid, Response.json 200 (Body.user u)) ∧
    bodyFields (Body.user u) =
      some (u.id, u.github_id, u.avatar_url, u.username) := by
  have hmem : u ∈ db.rows := by
    unfold deserializeUser at h
    have h1 : u ∈ db.rows.filter (fun r => r.id == uid) :=
      List.mem_of_mem_head? (by rw [Option.mem_def]; exact h)
    exact (List.mem_filter.mp h1).1
  have hr : requestUser db (some uid) = some u := h
  refine ⟨hmem, ?_, rfl⟩
  unfold profileRoute
  rw [hr]
  rfl

theorem profile_returns_full_row_witness :
    sampleRow ∈ sampleDB.rows ∧
    profileRoute sampleDB (some 1) =
      (sampleDB, some 1, Response.json 200 (Body.user sampleRow)) ∧
    bodyFields (Body.user sampleRow) =
      some (sampleRow.id, sampleRow.github_id, sampleRow.avatar_url,
        sampleRow.username) :=
  profile_returns_full_row sampleDB 1 sampleRow rfl
